import Mathlib

/-!
Shallow embedding of the two scripts of the `sweetrobo-casebot` repository:

* `replay_payload.py` — a linear three-call HTTP replayer (Works.save,
  Order.create, Machine.wait).  The network is modelled as three oracle
  inputs (`Except String Json`, one per call: a parsed JSON response or an
  exception message), and the run is modelled as the list of observable
  events (HTTP posts, sleeps, console lines) together with the process
  exit code.

* `phone-identifier-ai/detect_flat_area.py` — a fixed image pipeline
  (resize → grayscale → blur → Canny → dilate → contours → area-threshold
  mask → composite).  Images are modelled as dimensions plus a total pixel
  function; the OpenCV primitives are modelled concretely (the doc comment
  of each model states the modelling choices).
-/

namespace Replay

/-- JSON values, as produced by `requests.Response.json()`.  Python
distinguishes `int` and `float`; a `float` is modelled as the exact
rational value of its decimal literal. -/
inductive Json where
  | null : Json
  | bool (b : Bool) : Json
  | num (n : ℤ) : Json
  | flt (q : ℚ) : Json
  | str (s : String) : Json
  | arr (xs : List Json) : Json
  | obj (kvs : List (String × Json)) : Json

/-- Python `dict.get(k)` on an object modelled as an association list
(first binding wins; a parsed JSON object has unique keys). -/
def alookup (kvs : List (String × Json)) (k : String) : Option Json :=
  (kvs.find? (fun kv => kv.1 == k)).map (fun kv => kv.2)

/-- Python truthiness (`bool(x)`) of a decoded JSON value: `None`/`False`/
`0`/`0.0`/`""` and empty containers are falsy. -/
def pyTruthy : Json → Bool
  | .null => false
  | .bool b => b
  | .num n => n != 0
  | .flt q => !(q == 0)
  | .str s => s != ""
  | .arr xs => !xs.isEmpty
  | .obj kvs => !kvs.isEmpty

mutual

/-- Python `repr` of a decoded JSON value.  Faithful on `None`, booleans,
integers and strings (the values the script's claims exercise); a float is
rendered as its exact rational (`Rat` printing), and container rendering
does not escape quotes inside strings — no settled claim depends on the
rendering of floats or containers. -/
def pyRepr : Json → String
  | .null => "None"
  | .bool true => "True"
  | .bool false => "False"
  | .num n => toString n
  | .flt q => toString q
  | .str s => "'" ++ s ++ "'"
  | .arr xs => "[" ++ pyReprList xs ++ "]"
  | .obj kvs => "\x7b" ++ pyReprObj kvs ++ "\x7d"

/-- Comma-separated `repr` of a list of values. -/
def pyReprList : List Json → String
  | [] => ""
  | [x] => pyRepr x
  | x :: xs => pyRepr x ++ ", " ++ pyReprList xs

/-- Comma-separated `repr` of the bindings of an object. -/
def pyReprObj : List (String × Json) → String
  | [] => ""
  | [kv] => "'" ++ kv.1 ++ "': " ++ pyRepr kv.2
  | kv :: kvs => "'" ++ kv.1 ++ "': " ++ pyRepr kv.2 ++ ", " ++ pyReprObj kvs

end

/-- Python `str(x)` on a decoded JSON value: identity on strings, `repr`
otherwise. -/
def pyStr : Json → String
  | .str s => s
  | j => pyRepr j

/-- Observable events of one run of `replay_payload.py`:
an HTTP POST of a JSON body to `API_URL`, a `time.sleep` (in
milliseconds), a fixed printed line, a printed line of the form
`tag <pretty-printed response>`, a printed line of the form
`tag <exception text>` from an `except` block, and the traceback of an
uncaught exception. -/
inductive Event where
  | post (body : Json) : Event
  | sleepMs (ms : ℕ) : Event
  | info (msg : String) : Event
  | logResponse (tag : String) (j : Json) : Event
  | logError (tag : String) (e : String) : Event
  | uncaught (e : String) : Event

/-- The bindings of `works_payload` (lines 18–69 of `replay_payload.py`). -/
def worksPayloadFields : List (String × Json) :=
  [("s", .str "Works.save"),
   ("components", .arr [.obj
     [("is_under", .num 0),
      ("is_discount", .num 0),
      ("id", .null),
      ("type", .num 0),
      ("material_id", .num 0),
      ("works_id", .null),
      ("original_id", .num 0),
      ("index", .num 100),
      ("font_family", .str ".ttf"),
      ("font_style", .str "regular"),
      ("font_size", .num 0),
      ("font_color", .str ""),
      ("under_color", .str "#00000000"),
      ("width", .flt 162.80127198402892),
      ("height", .flt 150.52885572139306),
      ("top", .flt 17.23557213930348),
      ("left", .flt (-31.400635992014465)),
      ("zoom", .num 1),
      ("rotate", .num 0),
      ("content", .str "https://img.colorpark.cn/api/render/1754320363505.jpeg"),
      ("upper_left_x", .flt (-31.40063599199751)),
      ("upper_left_y", .flt 17.235572139291047),
      ("upper_right_x", .flt 131.400635992),
      ("upper_right_y", .flt 17.235572139291047),
      ("lower_left_x", .flt (-31.40063599199751)),
      ("lower_left_y", .flt 167.76442786071144),
      ("lower_right_x", .flt 131.400635992),
      ("lower_right_y", .flt 167.76442786071144),
      ("center_x", .num 50),
      ("center_y", .flt 92.5),
      ("image_left", .flt (-31.400635992014465)),
      ("image_top", .flt 17.23557213930348),
      ("image_width", .flt 162.80127198402892),
      ("image_height", .flt 150.52885572139306)]]),
   ("works_id", .null),
   ("goods_id", .str "4159"),
   ("template", .null),
   ("template_price", .null),
   ("template_user_id", .null),
   ("user_id", .null),
   ("platform", .num 4),
   ("shape_image", .str ""),
   ("shape_id", .str ""),
   ("shape_price", .str ""),
   ("machine_id", .str "11025496"),
   ("terminal", .num 2),
   ("background_color", .null)]

/-- The `Works.save` request body. -/
def worksPayload : Json := .obj worksPayloadFields

/-- The bindings of `order_payload` (lines 90–115): `works_id` is the
`str(...)` of the extracted identifier and `create_time` is
`int(time.time())`, passed in as `now`. -/
def orderPayloadFields (worksId : String) (now : ℤ) : List (String × Json) :=
  [("s", .str "Order.create"),
   ("type", .num 2),
   ("machine_id", .str "11025496"),
   ("goods_id", .str "4159"),
   ("works_id", .str worksId),
   ("channel_no", .null),
   ("dict_id", .null),
   ("goods_size", .null),
   ("works_num", .null),
   ("shop_id", .null),
   ("sn", .null),
   ("coupon_id", .null),
   ("user_address", .null),
   ("surface_type", .num 0),
   ("surface_id", .num 0),
   ("surface_color_series_id", .num 0),
   ("surface_color_id", .num 0),
   ("language", .str "en-us"),
   ("support_paypal", .str ""),
   ("promoter_id", .str ""),
   ("terminal", .num 4),
   ("customize_size_id", .str ""),
   ("create_time", .num now),
   ("user_id", .num 371785)]

/-- The `Order.create` request body. -/
def orderPayload (worksId : String) (now : ℤ) : Json :=
  .obj (orderPayloadFields worksId now)

/-- The `Machine.wait` request body (lines 128–134). -/
def machineWaitPayload : Json :=
  .obj [("s", .str "Machine.wait"),
        ("machine_id", .str "11025496"),
        ("page", .num 1),
        ("per_page", .num 20),
        ("total", .num 0)]

/-- The identifier extraction of line 80,
`resp1_json.get("data", {}).get("id")`: `some wid` when both attribute
accesses succeed (`wid` is `Json.null` when the `id` key is absent,
matching Python's `None`); `none` when a `.get` is called on a non-dict,
which raises an uncaught `AttributeError`. -/
def worksIdOf (j : Json) : Option Json :=
  match j with
  | .obj kvs =>
      match (alookup kvs "data").getD (.obj []) with
      | .obj dk => some ((alookup dk "id").getD .null)
      | _ => none
  | _ => none

/-- The value at path `data.id` of a response, when the response is an
object whose `data` field is an object carrying an `id` key. -/
def dataId (j : Json) : Option Json :=
  match j with
  | .obj kvs =>
      match alookup kvs "data" with
      | some (.obj dk) => alookup dk "id"
      | _ => none
  | _ => none

/-- Whether a response carries a `data.id` field at all. -/
def hasDataId (j : Json) : Bool := (dataId j).isSome

/-- The events of a successful SAVE call, up to and including the printed
response (lines 16, 72–74). -/
def preEvents (j : Json) : List Event :=
  [.info "📤 Sending Works.save...", .post worksPayload,
   .logResponse "✅ Works.save response:" j]

/-- The events of the `Order.create` step once reached (lines 85–121):
the 0.5 s sleep, the banner, the POST built from the extracted
identifier, and the printed response or the caught, printed exception. -/
def orderEventsOf (orderR : Except String Json) (wid : Json) (now : ℤ) :
    List Event :=
  [.sleepMs 500, .info "\n📤 Sending Order.create...",
   .post (orderPayload (pyStr wid) now)] ++
  (match orderR with
   | .ok j2 => [Event.logResponse "✅ Order.create response:" j2]
   | .error e => [Event.logError "❌ Error during Order.create:" e])

/-- The events of the `Machine.wait` step (lines 123–140). -/
def waitEventsOf (waitR : Except String Json) : List Event :=
  [.sleepMs 500, .info "\n📤 Sending Machine.wait...",
   .post machineWaitPayload] ++
  (match waitR with
   | .ok j3 => [Event.logResponse "✅ Machine.wait response:" j3]
   | .error e => [Event.logError "❌ Error during Machine.wait:" e])

/-- One run of `replay_payload.py`.  `saveR`, `orderR`, `waitR` are the
outcomes of the three `requests.post(...).json()` attempts (`.error e`
models any exception raised during the call or the parse, with text `e`);
`now` is `int(time.time())` at order-building time.  Returns the event
trace and the process exit code (an uncaught exception also terminates
CPython with exit code 1). -/
def runReplayer (saveR orderR waitR : Except String Json) (now : ℤ) :
    List Event × ℕ :=
  match saveR with
  | .error e =>
      ([.info "📤 Sending Works.save...", .post worksPayload,
        .logError "❌ Error during Works.save:" e], 1)
  | .ok j =>
      match j with
      | .obj kvs =>
          match (alookup kvs "data").getD (.obj []) with
          | .obj dk =>
              let wid := (alookup dk "id").getD .null
              if pyTruthy wid then
                (preEvents j ++ orderEventsOf orderR wid now ++ waitEventsOf waitR, 0)
              else
                (preEvents j ++ [.info "❌ No works_id returned. Exiting."], 1)
          | _ => (preEvents j ++ [.uncaught "AttributeError"], 1)
      | _ => (preEvents j ++ [.uncaught "AttributeError"], 1)

/-- The bodies of the HTTP POSTs of a trace, in order. -/
def sentBodies (t : List Event) : List Json :=
  t.filterMap fun e => match e with | .post b => some b | _ => none

/-- The POST and sleep events of a trace, in order (console output
dropped). -/
def postsAndSleeps (t : List Event) : List Event :=
  t.filter fun e =>
    match e with | .post _ => true | .sleepMs _ => true | _ => false

/-- Whether a run of the script terminates before reaching `Order.create`:
the SAVE call raised, the identifier extraction raised, or the extracted
identifier is falsy. -/
def saveFatal : Except String Json → Bool
  | .error _ => true
  | .ok j =>
      match worksIdOf j with
      | none => true
      | some wid => !(pyTruthy wid)

/-- A SAVE response whose `data.id` is present but `0`. -/
def respZeroId : Json := .obj [("data", .obj [("id", .num 0)])]

/-- A SAVE response whose `data.id` is present and `987`. -/
def resp987 : Json := .obj [("data", .obj [("id", .num 987)])]

end Replay

namespace Detect

/-- An image: row count `h`, column count `w`, and a total pixel function
(row, column).  The numpy arrays of the script are finite; modelling the
pixel map as a total function over `ℤ × ℤ` keeps indexing simple, and the
stage models below also serve as the border extrapolation of the OpenCV
filters (no settled claim depends on pixel values near the border). -/
structure Img (α : Type) where
  h : ℕ
  w : ℕ
  px : ℤ → ℤ → α

/-- A BGR colour pixel (the channel order of `cv2.imread`). -/
def Pix : Type := ℕ × ℕ × ℕ

/-- Model of `cv2.resize(img, (500, 1000))`: output is 500 columns by
1000 rows; pixels are taken by nearest-neighbour sampling of the source
(the script uses the default bilinear interpolation; the two agree on the
constant images of the settled claims, and the dimension behaviour is
exact). -/
def resizeModel (img : Img Pix) : Img Pix :=
  ⟨1000, 500, fun i j => img.px (i * (img.h : ℤ) / 1000) (j * (img.w : ℤ) / 500)⟩

/-- Model of the `cv2.COLOR_BGR2GRAY` pixel formula
`round(0.299 R + 0.587 G + 0.114 B)`, computed in exact integer
arithmetic with round-half-up. -/
def grayOf (p : Pix) : ℕ :=
  (299 * p.2.2 + 587 * p.2.1 + 114 * p.1 + 500) / 1000

/-- Model of `cv2.cvtColor(img, cv2.COLOR_BGR2GRAY)`. -/
def cvtColorGray (img : Img Pix) : Img ℕ :=
  ⟨img.h, img.w, fun i j => grayOf (img.px i j)⟩

/-- The 1-D Gaussian taps OpenCV uses for `ksize = 5` with derived sigma:
`[1, 4, 6, 4, 1] / 16`, as (offset, weight) pairs. -/
def gauss5 : List (ℤ × ℕ) := [(-2, 1), (-1, 4), (0, 6), (1, 4), (2, 1)]

/-- Model of `cv2.GaussianBlur(img, (5, 5), 0)`: convolution with the
outer product of `gauss5` with itself (total weight 256), rounded to
nearest. -/
def blurModel (img : Img ℕ) : Img ℕ :=
  ⟨img.h, img.w, fun i j =>
    ((gauss5.foldl (fun s a =>
        gauss5.foldl (fun s b => s + a.2 * b.2 * img.px (i + a.1) (j + b.1)) s) 0)
      + 128) / 256⟩

/-- Horizontal Sobel derivative (3×3 kernel `[[-1,0,1],[-2,0,2],[-1,0,1]]`). -/
def sobelGx (img : Img ℕ) (i j : ℤ) : ℤ :=
  ((img.px (i - 1) (j + 1) : ℤ) + 2 * (img.px i (j + 1) : ℤ)
    + (img.px (i + 1) (j + 1) : ℤ))
  - ((img.px (i - 1) (j - 1) : ℤ) + 2 * (img.px i (j - 1) : ℤ)
    + (img.px (i + 1) (j - 1) : ℤ))

/-- Vertical Sobel derivative (transpose kernel). -/
def sobelGy (img : Img ℕ) (i j : ℤ) : ℤ :=
  ((img.px (i + 1) (j - 1) : ℤ) + 2 * (img.px (i + 1) j : ℤ)
    + (img.px (i + 1) (j + 1) : ℤ))
  - ((img.px (i - 1) (j - 1) : ℤ) + 2 * (img.px (i - 1) j : ℤ)
    + (img.px (i - 1) (j + 1) : ℤ))

/-- Model of `cv2.Canny(img, lo, hi)`: a pixel is an edge (255) when its
L1 Sobel gradient magnitude reaches the high threshold, 0 otherwise.
Hysteresis (promotion of weak edges above `lo` that touch a strong edge)
is not modelled; no settled claim depends on it — on the constant images
of the claims every gradient is zero and both models give no edges. -/
def cannyModel (img : Img ℕ) (lo hi : ℕ) : Img ℕ :=
  ⟨img.h, img.w, fun i j =>
    if (hi : ℤ) ≤ |sobelGx img i j| + |sobelGy img i j| then 255
    else 0⟩

/-- The 3×3 window offsets of the `np.ones((3, 3))` structuring element. -/
def win3 : List (ℤ × ℤ) :=
  [(-1, -1), (-1, 0), (-1, 1), (0, -1), (0, 0), (0, 1), (1, -1), (1, 0), (1, 1)]

/-- One round of `cv2.dilate` with a 3×3 all-ones element: each pixel
becomes the maximum over its 3×3 neighbourhood. -/
def dilateOnce (img : Img ℕ) : Img ℕ :=
  ⟨img.h, img.w, fun i j =>
    win3.foldl (fun s a => max s (img.px (i + a.1) (j + a.2))) 0⟩

/-- `cv2.dilate(img, np.ones((3, 3)), iterations=2)`. -/
def dilateModel (img : Img ℕ) : Img ℕ := dilateOnce (dilateOnce img)

/-- A contour as the threshold loop consumes it: the area
`cv2.contourArea(cnt)` reports for it, and the pixel region that
`cv2.drawContours(mask, [cnt], -1, 0, -1)` fills.  In `findContoursModel`
below, the region is the contour's connected component and the area its
pixel count (`cv2.contourArea` computes the polygonal boundary area; no
settled claim depends on the area value of an extracted contour). -/
structure Contour where
  area : ℚ
  region : ℤ → ℤ → Bool

/-- The in-range pixels of a single-channel image holding a nonzero
value, row-major. -/
def nonzeroPixels (img : Img ℕ) : List (ℤ × ℤ) :=
  (List.range img.h).flatMap fun a =>
    (List.range img.w).filterMap fun b =>
      if img.px (a : ℤ) (b : ℤ) ≠ 0 then some ((a : ℤ), (b : ℤ)) else none

/-- 8-neighbourhood adjacency (a pixel is also adjacent to itself, which
is harmless for grouping distinct pixels). -/
def adj8 (p q : ℤ × ℤ) : Bool :=
  decide ((p.1 - q.1).natAbs ≤ 1) && decide ((p.2 - q.2).natAbs ≤ 1)

/-- Add one pixel to a set of components, merging every component it
touches. -/
def addPixel (comps : List (List (ℤ × ℤ))) (p : ℤ × ℤ) :
    List (List (ℤ × ℤ)) :=
  let t := comps.partition fun c => c.any (adj8 p)
  (p :: t.1.flatten) :: t.2

/-- The 8-connected components of a pixel list. -/
def componentsOf (ps : List (ℤ × ℤ)) : List (List (ℤ × ℤ)) :=
  ps.foldl addPixel []

/-- Model of `cv2.findContours(img, cv2.RETR_EXTERNAL,
cv2.CHAIN_APPROX_SIMPLE)`: one contour per 8-connected component of the
nonzero pixels, carrying that component as its fill region and its pixel
count as its area. -/
def findContoursModel (img : Img ℕ) : List Contour :=
  (componentsOf (nonzeroPixels img)).map fun c =>
    ⟨(c.length : ℚ), fun i j => c.contains (i, j)⟩

/-- `np.ones_like(gray, dtype=np.uint8) * 255`: a mask of the dimensions
of `g` with every pixel 255. -/
def maskInit (g : Img ℕ) : Img ℕ := ⟨g.h, g.w, fun _ _ => 255⟩

/-- `cv2.drawContours(mask, [cnt], -1, 0, -1)`: fill the contour's region
with 0, leaving every other pixel unchanged. -/
def fillContour (m : Img ℕ) (c : Contour) : Img ℕ :=
  ⟨m.h, m.w, fun i j => if c.region i j then 0 else m.px i j⟩

/-- One iteration of the threshold loop (lines 31–34): fill the contour
when `cv2.contourArea(cnt) < 30000`, otherwise leave the mask alone. -/
def maskStep (m : Img ℕ) (c : Contour) : Img ℕ :=
  if c.area < 30000 then fillContour m c else m

/-- The whole threshold loop over the extracted contours. -/
def applyThreshold (m : Img ℕ) (cs : List Contour) : Img ℕ :=
  cs.foldl maskStep m

/-- `cv2.bitwise_and(img, img, mask=m)`: the image where the mask is
nonzero, black elsewhere. -/
def bitwiseAndMasked (img : Img Pix) (m : Img ℕ) : Img Pix :=
  ⟨img.h, img.w, fun i j => if m.px i j = 0 then ((0, 0, 0) : Pix) else img.px i j⟩

/-- Line 10: `image = cv2.resize(image, (500, 1000))`. -/
def image (img0 : Img Pix) : Img Pix := resizeModel img0

/-- Line 13: `gray = cv2.cvtColor(image, cv2.COLOR_BGR2GRAY)`. -/
def gray (img0 : Img Pix) : Img ℕ := cvtColorGray (image img0)

/-- Line 16: `blurred = cv2.GaussianBlur(gray, (5, 5), 0)`. -/
def blurred (img0 : Img Pix) : Img ℕ := blurModel (gray img0)

/-- Line 19: `edges = cv2.Canny(blurred, 50, 150)`. -/
def edges (img0 : Img Pix) : Img ℕ := cannyModel (blurred img0) 50 150

/-- Line 22: `dilated = cv2.dilate(edges, np.ones((3, 3)), iterations=2)`. -/
def dilated (img0 : Img Pix) : Img ℕ := dilateModel (edges img0)

/-- Line 25: `contours, _ = cv2.findContours(dilated, ...)`. -/
def contours (img0 : Img Pix) : List Contour := findContoursModel (dilated img0)

/-- Line 28: the mask as created, before the threshold loop runs. -/
def mask (img0 : Img Pix) : Img ℕ := maskInit (gray img0)

/-- The mask after the threshold loop of lines 31–34. -/
def maskFinal (img0 : Img Pix) : Img ℕ :=
  applyThreshold (mask img0) (contours img0)

/-- Line 37: `result = cv2.bitwise_and(image, image, mask=mask)`. -/
def result (img0 : Img Pix) : Img Pix :=
  bitwiseAndMasked (image img0) (maskFinal img0)

/-- The whole script, from the `cv2.imread` result on: `none` (decode
failure) raises the `ValueError` of line 7 before any processing; a
loaded image runs the unconditional pipeline and displays the four
windows (Original, Edges, Flat Area Mask, Final Result), in that order. -/
def runDetector (loaded : Option (Img Pix)) :
    Except String (Img Pix × Img ℕ × Img ℕ × Img Pix) :=
  match loaded with
  | none => .error "Image not found. Check path and filename."
  | some img0 => .ok (image img0, edges img0, maskFinal img0, result img0)

/-- The process exit code: an uncaught `ValueError` terminates CPython
with exit code 1; otherwise the script returns from `cv2.waitKey(0)` on a
keypress, destroys the windows and exits 0. -/
def detectorExit (loaded : Option (Img Pix)) : ℕ :=
  match runDetector loaded with
  | .error _ => 1
  | .ok _ => 0

/-- A synthetic all-white 500×1000 input (1000 rows, 500 columns). -/
def allWhite : Img Pix := ⟨1000, 500, fun _ _ => ((255, 255, 255) : Pix)⟩

/-- A contour of area 1 covering only the pixel (0, 0). -/
def cSmall : Contour := ⟨1, fun i j => decide (i = 0) && decide (j = 0)⟩

/-- A contour of area exactly 30000 covering every pixel. -/
def cBig : Contour := ⟨30000, fun _ _ => true⟩

end Detect

namespace Replay

/-- Evaluation of a run whose SAVE call parsed: the trace and exit code
are decided by the identifier extraction alone. -/
theorem runReplayer_ok (j : Json) (orderR waitR : Except String Json) (now : ℤ) :
    runReplayer (.ok j) orderR waitR now =
      match worksIdOf j with
      | none => (preEvents j ++ [.uncaught "AttributeError"], 1)
      | some wid =>
          if pyTruthy wid then
            (preEvents j ++ orderEventsOf orderR wid now ++ waitEventsOf waitR, 0)
          else
            (preEvents j ++ [.info "❌ No works_id returned. Exiting."], 1) := by
  cases j with
  | obj kvs =>
      simp only [runReplayer, worksIdOf]
      cases hm : (alookup kvs "data").getD (.obj []) <;> simp
  | null => rfl
  | bool b => rfl
  | num n => rfl
  | flt q => rfl
  | str s => rfl
  | arr xs => rfl

/-- The exit code of a run depends only on the SAVE outcome. -/
theorem runReplayer_exit (saveR orderR waitR : Except String Json) (now : ℤ) :
    (runReplayer saveR orderR waitR now).2 = if saveFatal saveR then 1 else 0 := by
  cases saveR with
  | error e => rfl
  | ok j =>
      rw [runReplayer_ok]
      cases hw : worksIdOf j with
      | none => simp [saveFatal, hw]
      | some wid => cases ht : pyTruthy wid <;> simp [saveFatal, hw, ht]

/-- Only the SAVE body is posted by the prefix of every trace. -/
theorem sentBodies_preEvents (j : Json) :
    sentBodies (preEvents j) = [worksPayload] := rfl

/-- C1 (counterexample): a SAVE response whose parsed JSON does contain
`data.id` (here with value `0`) under which the run posts only the SAVE
body — no ORDER request is sent at all, so no ORDER body carrying
`works_id = "0"` exists, contrary to the claim as stated. -/
theorem order_not_sent_for_zero_id :
    dataId respZeroId = some (Json.num 0) ∧
    sentBodies (runReplayer (.ok respZeroId) (.ok .null) (.ok .null) 0).1
      = [worksPayload] := by
  exact ⟨rfl, rfl⟩

/-- C1 (amended): for every SAVE response whose parsed JSON contains a
truthy (nonzero) numeric `data.id`, the run posts exactly the SAVE body,
the ORDER body and the WAIT body, and the ORDER body's `works_id` field
is the string form of the identifier. -/
theorem order_carries_works_id (kvs dk : List (String × Json)) (n : ℤ)
    (orderR waitR : Except String Json) (now : ℤ)
    (h1 : alookup kvs "data" = some (.obj dk))
    (h2 : alookup dk "id" = some (.num n)) (h3 : n ≠ 0) :
    sentBodies (runReplayer (.ok (.obj kvs)) orderR waitR now).1
      = [worksPayload, orderPayload (toString n) now, machineWaitPayload] ∧
    alookup (orderPayloadFields (toString n) now) "works_id"
      = some (.str (toString n)) := by
  have hw : worksIdOf (.obj kvs) = some (.num n) := by
    simp [worksIdOf, h1, h2]
  have ht : pyTruthy (.num n) = true := by
    simp [pyTruthy, h3]
  constructor
  · rw [runReplayer_ok, hw]
    cases orderR <;> cases waitR <;>
      simp [ht, sentBodies, preEvents, orderEventsOf, waitEventsOf, pyStr, pyRepr]
  · rfl

/-- C1 (witness for the amended claim), at the spec's example `id = 987`. -/
theorem order_carries_works_id_witness :
    sentBodies (runReplayer (.ok resp987) (.ok .null) (.ok .null) 5).1
      = [worksPayload, orderPayload (toString (987 : ℤ)) 5, machineWaitPayload] ∧
    alookup (orderPayloadFields (toString (987 : ℤ)) 5) "works_id"
      = some (.str (toString (987 : ℤ))) :=
  order_carries_works_id [("data", .obj [("id", .num 987)])]
    [("id", .num 987)] 987 (.ok .null) (.ok .null) 5 rfl rfl (by decide)

/-- C2: when the parsed SAVE response carries no `data.id` field, the run
exits with code 1 and posts only the SAVE body — neither the ORDER nor
the WAIT request is issued. -/
theorem missing_data_id_fatal (resp : Json)
    (orderR waitR : Except String Json) (now : ℤ)
    (h : hasDataId resp = false) :
    (runReplayer (.ok resp) orderR waitR now).2 = 1 ∧
    sentBodies (runReplayer (.ok resp) orderR waitR now).1 = [worksPayload] := by
  have hw : worksIdOf resp = none ∨ worksIdOf resp = some Json.null := by
    cases resp with
    | obj kvs =>
        cases hd : alookup kvs "data" with
        | none =>
            right; simp only [worksIdOf]; rw [hd]; rfl
        | some v =>
            cases v with
            | obj dk =>
                cases hio : alookup dk "id" with
                | none =>
                    right; simp only [worksIdOf]; rw [hd]
                    simp [hio]
                | some w =>
                    exfalso
                    simp only [hasDataId, dataId] at h
                    rw [hd] at h
                    simp [hio] at h
            | null => left; simp only [worksIdOf]; rw [hd]; rfl
            | bool b => left; simp only [worksIdOf]; rw [hd]; rfl
            | num n => left; simp only [worksIdOf]; rw [hd]; rfl
            | flt q => left; simp only [worksIdOf]; rw [hd]; rfl
            | str s => left; simp only [worksIdOf]; rw [hd]; rfl
            | arr xs => left; simp only [worksIdOf]; rw [hd]; rfl
    | null => left; rfl
    | bool b => left; rfl
    | num n => left; rfl
    | flt q => left; rfl
    | str s => left; rfl
    | arr xs => left; rfl
  rw [runReplayer_ok]
  rcases hw with hw | hw <;> rw [hw] <;>
    simp [pyTruthy, sentBodies, preEvents]

/-- C2 (witness): a SAVE response that parsed to an empty object. -/
theorem missing_data_id_fatal_witness :
    (runReplayer (.ok (.obj [])) (.ok .null) (.ok .null) 0).2 = 1 ∧
    sentBodies (runReplayer (.ok (.obj [])) (.ok .null) (.ok .null) 0).1
      = [worksPayload] :=
  missing_data_id_fatal (.obj []) (.ok .null) (.ok .null) 0 rfl

/-- C3: when SAVE succeeds with a truthy identifier and the ORDER call
raises, the exception is caught and printed, the WAIT request is still
posted, and the process still exits 0. -/
theorem order_failure_nonfatal (kvs dk : List (String × Json)) (wid : Json)
    (e : String) (waitR : Except String Json) (now : ℤ)
    (h1 : alookup kvs "data" = some (.obj dk))
    (h2 : alookup dk "id" = some wid) (h3 : pyTruthy wid = true) :
    Event.logError "❌ Error during Order.create:" e
        ∈ (runReplayer (.ok (.obj kvs)) (.error e) waitR now).1 ∧
    Event.post machineWaitPayload
        ∈ (runReplayer (.ok (.obj kvs)) (.error e) waitR now).1 ∧
    (runReplayer (.ok (.obj kvs)) (.error e) waitR now).2 = 0 := by
  have hw : worksIdOf (.obj kvs) = some wid := by
    simp [worksIdOf, h1, h2]
  rw [runReplayer_ok, hw]
  cases waitR <;> simp [h3, preEvents, orderEventsOf, waitEventsOf]

/-- C3 (witness): `id = 987`, ORDER raises `"boom"`, WAIT succeeds. -/
theorem order_failure_nonfatal_witness :
    Event.logError "❌ Error during Order.create:" "boom"
        ∈ (runReplayer (.ok resp987) (.error "boom") (.ok .null) 7).1 ∧
    Event.post machineWaitPayload
        ∈ (runReplayer (.ok resp987) (.error "boom") (.ok .null) 7).1 ∧
    (runReplayer (.ok resp987) (.error "boom") (.ok .null) 7).2 = 0 :=
  order_failure_nonfatal [("data", .obj [("id", .num 987)])]
    [("id", .num 987)] (.num 987) "boom" (.ok .null) 7 rfl rfl (by decide)

/-- C6 (counterexample): a run whose SAVE call succeeded and whose
response does carry `data.id` (value `0`), yet the exit code is 1 —
contrary to the claim's "1 only on SAVE failure or missing identifier,
0 otherwise". -/
theorem exit_one_despite_present_id :
    (runReplayer (.ok respZeroId) (.ok .null) (.ok .null) 0).2 = 1 ∧
    hasDataId respZeroId = true := by
  exact ⟨rfl, rfl⟩

/-- C6 (amended): the exit code is 1 exactly when the SAVE call raises,
the identifier extraction raises, or the extracted identifier is missing
or falsy; it is 0 exactly when a truthy identifier is extracted; and the
outcomes of the ORDER and WAIT calls (and the clock) never change it. -/
theorem exit_code_characterization (saveR orderR waitR : Except String Json)
    (now : ℤ) :
    ((runReplayer saveR orderR waitR now).2 = 1 ↔
      ((∃ e, saveR = .error e) ∨ ∃ j, saveR = .ok j ∧
        (worksIdOf j = none ∨
          ∃ wid, worksIdOf j = some wid ∧ pyTruthy wid = false))) ∧
    ((runReplayer saveR orderR waitR now).2 = 0 ↔
      ∃ j wid, saveR = .ok j ∧ worksIdOf j = some wid ∧ pyTruthy wid = true) ∧
    (∀ orderR2 waitR2 : Except String Json, ∀ now2 : ℤ,
      (runReplayer saveR orderR waitR now).2
        = (runReplayer saveR orderR2 waitR2 now2).2) := by
  refine ⟨?_, ?_, fun orderR2 waitR2 now2 => by
    rw [runReplayer_exit, runReplayer_exit]⟩ <;>
  · rw [runReplayer_exit]
    cases saveR with
    | error e => simp [saveFatal]
    | ok j =>
        cases hw : worksIdOf j with
        | none => simp [saveFatal, hw]
        | some wid => cases ht : pyTruthy wid <;> simp [saveFatal, hw, ht]

/-- C7: in every run that proceeds past SAVE, the POSTs and sleeps of the
trace are exactly: the SAVE post with no pause before it, a fixed 500 ms
sleep, the ORDER post, another fixed 500 ms sleep, and the WAIT post —
regardless of the ORDER and WAIT outcomes. -/
theorem fixed_sleeps_before_order_and_wait (kvs dk : List (String × Json))
    (wid : Json) (orderR waitR : Except String Json) (now : ℤ)
    (h1 : alookup kvs "data" = some (.obj dk))
    (h2 : alookup dk "id" = some wid) (h3 : pyTruthy wid = true) :
    postsAndSleeps (runReplayer (.ok (.obj kvs)) orderR waitR now).1
      = [.post worksPayload, .sleepMs 500, .post (orderPayload (pyStr wid) now),
         .sleepMs 500, .post machineWaitPayload] := by
  have hw : worksIdOf (.obj kvs) = some wid := by
    simp [worksIdOf, h1, h2]
  rw [runReplayer_ok, hw]
  cases orderR <;> cases waitR <;>
    simp [h3, postsAndSleeps, preEvents, orderEventsOf, waitEventsOf]

/-- C7 (witness): `id = 987` with both later calls failing. -/
theorem fixed_sleeps_before_order_and_wait_witness :
    postsAndSleeps
        (runReplayer (.ok resp987) (.error "x") (.error "y") 3).1
      = [.post worksPayload, .sleepMs 500,
         .post (orderPayload (pyStr (.num 987)) 3),
         .sleepMs 500, .post machineWaitPayload] :=
  fixed_sleeps_before_order_and_wait [("data", .obj [("id", .num 987)])]
    [("id", .num 987)] (.num 987) (.error "x") (.error "y") 3 rfl rfl (by decide)

/-- C10: when `data.id` is present but falsy (0, empty string, null,
false, ...), the run prints the missing-identifier error, exits with
code 1, and posts only the SAVE body. -/
theorem falsy_id_fatal (kvs dk : List (String × Json)) (wid : Json)
    (orderR waitR : Except String Json) (now : ℤ)
    (h1 : alookup kvs "data" = some (.obj dk))
    (h2 : alookup dk "id" = some wid) (h3 : pyTruthy wid = false) :
    (runReplayer (.ok (.obj kvs)) orderR waitR now).2 = 1 ∧
    sentBodies (runReplayer (.ok (.obj kvs)) orderR waitR now).1
      = [worksPayload] ∧
    Event.info "❌ No works_id returned. Exiting."
        ∈ (runReplayer (.ok (.obj kvs)) orderR waitR now).1 := by
  have hw : worksIdOf (.obj kvs) = some wid := by
    simp [worksIdOf, h1, h2]
  rw [runReplayer_ok, hw]
  simp [h3, sentBodies, preEvents]

/-- C10 (witness): `data.id = 0`. -/
theorem falsy_id_fatal_witness :
    (runReplayer (.ok respZeroId) (.ok .null) (.ok .null) 0).2 = 1 ∧
    sentBodies (runReplayer (.ok respZeroId) (.ok .null) (.ok .null) 0).1
      = [worksPayload] ∧
    Event.info "❌ No works_id returned. Exiting."
        ∈ (runReplayer (.ok respZeroId) (.ok .null) (.ok .null) 0).1 :=
  falsy_id_fatal [("data", .obj [("id", .num 0)])] [("id", .num 0)]
    (.num 0) (.ok .null) (.ok .null) 0 rfl rfl (by decide)

end Replay

namespace Detect

/-- The loop body never turns a blocked (0) mask pixel back on. -/
theorem maskStep_zero (m : Img ℕ) (d : Contour) (i j : ℤ)
    (h : m.px i j = 0) : (maskStep m d).px i j = 0 := by
  unfold maskStep fillContour
  split
  · dsimp only
    split <;> simp [h]
  · exact h

/-- The whole loop never turns a blocked (0) mask pixel back on. -/
theorem applyThreshold_zero (m : Img ℕ) (cs : List Contour) (i j : ℤ)
    (h : m.px i j = 0) : (applyThreshold m cs).px i j = 0 := by
  induction cs generalizing m with
  | nil => exact h
  | cons d ds ih => exact ih (maskStep m d) (maskStep_zero m d i j h)

/-- C4: for a contour among the extracted ones whose measured area is
strictly below 30000 px², the loop zeroes the mask over that contour's
fill region (and the zero survives the rest of the loop); for a contour
whose area is at least 30000 px², the loop iteration for that contour
leaves the mask untouched. -/
theorem contour_threshold_mask (m : Img ℕ) (cs : List Contour) (c : Contour) :
    (c ∈ cs → c.area < 30000 → ∀ i j, c.region i j = true →
      (applyThreshold m cs).px i j = 0) ∧
    (30000 ≤ c.area → maskStep m c = m) := by
  constructor
  · intro hmem harea i j hreg
    induction cs generalizing m with
    | nil => cases hmem
    | cons d ds ih =>
        rcases List.mem_cons.mp hmem with rfl | hmem'
        · have h0 : (maskStep m c).px i j = 0 := by
            unfold maskStep
            rw [if_pos harea]
            simp [fillContour, hreg]
          exact applyThreshold_zero (maskStep m c) ds i j h0
        · exact ih (maskStep m d) hmem'
  · intro harea
    unfold maskStep
    rw [if_neg (not_lt.mpr harea)]

/-- C4 (witness): a unit-area contour at the origin is blacked out of the
fresh mask; a 30000 px² contour's iteration is the identity. -/
theorem contour_threshold_mask_witness :
    (applyThreshold (mask allWhite) [cSmall]).px 0 0 = 0 ∧
    maskStep (mask allWhite) cBig = mask allWhite :=
  ⟨(contour_threshold_mask (mask allWhite) [cSmall] cSmall).1
      (by simp) (by norm_num [cSmall]) 0 0 (by decide),
   (contour_threshold_mask (mask allWhite) [] cBig).2 (by norm_num [cBig])⟩

/-- C5: for every loaded image, the mask of line 28 has exactly the
dimensions of the resized image (1000 rows × 500 columns) and every
pixel 255, before any contour is filled. -/
theorem mask_matches_resized_dims (img0 : Img Pix) :
    (mask img0).h = (image img0).h ∧ (mask img0).w = (image img0).w ∧
    (image img0).h = 1000 ∧ (image img0).w = 500 ∧
    ∀ i j, (mask img0).px i j = 255 :=
  ⟨rfl, rfl, rfl, rfl, fun _ _ => rfl⟩

/-- C9: the only failure mode is image-load failure, which raises the
descriptive `ValueError` before any processing (exit code 1); on any
loaded image every pipeline stage runs unconditionally, the four windows
are produced, and the process exits 0 after the keypress. -/
theorem detector_failure_semantics :
    runDetector none = .error "Image not found. Check path and filename." ∧
    detectorExit none = 1 ∧
    ∀ img0 : Img Pix,
      runDetector (some img0)
          = .ok (image img0, edges img0, maskFinal img0, result img0) ∧
      detectorExit (some img0) = 0 :=
  ⟨rfl, rfl, fun _ => ⟨rfl, rfl⟩⟩

/-- Resizing the all-white input leaves every pixel white. -/
theorem image_allWhite_px :
    (image allWhite).px = fun _ _ => ((255, 255, 255) : Pix) := by
  funext i j; rfl

/-- Grayscale of the all-white image is the constant 255. -/
theorem gray_allWhite_px : (gray allWhite).px = fun _ _ => 255 := by
  funext i j
  show grayOf ((image allWhite).px i j) = 255
  rw [image_allWhite_px]
  exact (by decide : grayOf ((255, 255, 255) : Pix) = 255)

/-- The Gaussian blur of the constant-255 image is constant 255. -/
theorem blurred_allWhite_px : (blurred allWhite).px = fun _ _ => 255 := by
  funext i j
  show ((gauss5.foldl (fun s a =>
      gauss5.foldl
        (fun s b => s + a.2 * b.2 * (gray allWhite).px (i + a.1) (j + b.1)) s) 0)
    + 128) / 256 = 255
  rw [gray_allWhite_px]
  simp only [gauss5, List.foldl_cons, List.foldl_nil]

/-- The edge map of the all-white image is all zero: every Sobel
derivative of a constant image vanishes, so no gradient reaches the
threshold. -/
theorem edges_allWhite_px : (edges allWhite).px = fun _ _ => 0 := by
  funext i j
  show (if ((150 : ℕ) : ℤ) ≤ |sobelGx (blurred allWhite) i j|
          + |sobelGy (blurred allWhite) i j| then 255 else 0) = 0
  have hx : sobelGx (blurred allWhite) i j = 0 := by
    unfold sobelGx; rw [blurred_allWhite_px]; norm_num
  have hy : sobelGy (blurred allWhite) i j = 0 := by
    unfold sobelGy; rw [blurred_allWhite_px]; norm_num
  rw [hx, hy]
  norm_num

/-- Dilation of an all-zero map is all zero. -/
theorem dilateOnce_zero (g : Img ℕ) (hg : g.px = fun _ _ => 0) :
    (dilateOnce g).px = fun _ _ => 0 := by
  funext i j
  show win3.foldl (fun s a => max s (g.px (i + a.1) (j + a.2))) 0 = 0
  rw [hg]
  simp [win3]

/-- The dilated edge map of the all-white image is all zero. -/
theorem dilated_allWhite_px : (dilated allWhite).px = fun _ _ => 0 :=
  dilateOnce_zero _ (dilateOnce_zero _ edges_allWhite_px)

/-- The all-zero dilated map has no nonzero pixel. -/
theorem nonzeroPixels_allWhite : nonzeroPixels (dilated allWhite) = [] := by
  unfold nonzeroPixels
  rw [List.flatMap_eq_nil_iff]
  intro a _
  rw [List.filterMap_eq_nil_iff]
  intro b _
  rw [dilated_allWhite_px]
  simp

/-- C8 (part): the all-white image yields zero contours. -/
theorem contours_allWhite : contours allWhite = [] := by
  unfold contours findContoursModel componentsOf
  rw [nonzeroPixels_allWhite]
  rfl

/-- C8: on the synthetic 500×1000 all-white input, zero contours are
detected, the threshold loop leaves the mask exactly as initialized
(every pixel 255), and the composited result equals the resized input
pixel for pixel. -/
theorem all_white_pipeline :
    contours allWhite = [] ∧
    maskFinal allWhite = mask allWhite ∧
    (∀ i j, (maskFinal allWhite).px i j = 255) ∧
    result allWhite = image allWhite := by
  have hm : maskFinal allWhite = mask allWhite := by
    unfold maskFinal
    rw [contours_allWhite]
    rfl
  refine ⟨contours_allWhite, hm, fun i j => by rw [hm]; rfl, ?_⟩
  unfold result
  rw [hm]
  unfold bitwiseAndMasked mask maskInit
  simp

end Detect
